import Mathlib

/-!
Verification of the `logchef` CLI OAuth2/OIDC PKCE login flow
(`cli/crates/logchef-core/src/auth/mod.rs` and the pieces of
`cli/crates/logchef-core/src/api/mod.rs` it uses).

The Rust source is shallowly embedded: byte values are `Nat` (reduced
`% 256` or `% 2^32` wherever the machine width matters), fallible
operations return `Option`/`Except`, and the effectful flow
(`AuthFlow::run`) is a pure function over an explicit environment that
supplies the random bytes, the network responses and the stream of
incoming callback connections.
-/

/-! ## base64url (no padding), as produced by
`base64::engine::general_purpose::URL_SAFE_NO_PAD` -/

/-- The base64url alphabet: index 0-25 ↦ A-Z, 26-51 ↦ a-z, 52-61 ↦ 0-9,
62 ↦ -, 63 ↦ _. -/
def b64urlChar (n : Nat) : Char :=
  if n < 26 then Char.ofNat (65 + n)
  else if n < 52 then Char.ofNat (97 + (n - 26))
  else if n < 62 then Char.ofNat (48 + (n - 52))
  else if n = 62 then '-'
  else '_'

/-- base64url-encode a byte list, no padding: groups of 3 bytes become 4
characters; a trailing group of 1 or 2 bytes becomes 2 or 3 characters. -/
def b64urlEncode : List Nat → List Char
  | [] => []
  | [b1] => [b64urlChar (b1 / 4), b64urlChar (b1 % 4 * 16)]
  | [b1, b2] =>
      [b64urlChar (b1 / 4), b64urlChar (b1 % 4 * 16 + b2 / 16),
       b64urlChar (b2 % 16 * 4)]
  | b1 :: b2 :: b3 :: rest =>
      b64urlChar (b1 / 4) :: b64urlChar (b1 % 4 * 16 + b2 / 16) ::
      b64urlChar (b2 % 16 * 4 + b3 / 64) :: b64urlChar (b3 % 64) ::
      b64urlEncode rest

/-- base64url-no-padding encoding of bytes, as a string. -/
def b64url (bs : List Nat) : String := ⟨b64urlEncode bs⟩

/-! ## SHA-256 (the `sha2` crate's `Sha256`), over byte lists, all words
kept below `2^32` by explicit `%`. -/

def w32 : Nat := 4294967296

def add32 (a b : Nat) : Nat := (a + b) % w32

/-- Right-rotation of a 32-bit word. -/
def rotr32 (n x : Nat) : Nat := (x % 2 ^ n * 2 ^ (32 - n) + x / 2 ^ n) % w32

def not32 (x : Nat) : Nat := (w32 - 1) ^^^ x

def sha256BSig0 (x : Nat) : Nat := rotr32 2 x ^^^ rotr32 13 x ^^^ rotr32 22 x

def sha256BSig1 (x : Nat) : Nat := rotr32 6 x ^^^ rotr32 11 x ^^^ rotr32 25 x

def sha256SSig0 (x : Nat) : Nat := rotr32 7 x ^^^ rotr32 18 x ^^^ x / 2 ^ 3

def sha256SSig1 (x : Nat) : Nat := rotr32 17 x ^^^ rotr32 19 x ^^^ x / 2 ^ 10

def sha256Ch (x y z : Nat) : Nat := x &&& y ^^^ (not32 x &&& z)

def sha256Maj (x y z : Nat) : Nat := x &&& y ^^^ (x &&& z) ^^^ (y &&& z)

/-- The 64 SHA-256 round constants. -/
def sha256K : List Nat :=
  [1116352408, 1899447441, 3049323471, 3921009573, 961987163,
   1508970993, 2453635748, 2870763221, 3624381080, 310598401,
   607225278, 1426881987, 1925078388, 2162078206, 2614888103,
   3248222580, 3835390401, 4022224774, 264347078, 604807628,
   770255983, 1249150122, 1555081692, 1996064986, 2554220882,
   2821834349, 2952996808, 3210313671, 3336571891, 3584528711,
   113926993, 338241895, 666307205, 773529912, 1294757372,
   1396182291, 1695183700, 1986661051, 2177026350, 2456956037,
   2730485921, 2820302411, 3259730800, 3345764771, 3516065817,
   3600352804, 4094571909, 275423344, 430227734, 506948616,
   659060556, 883997877, 958139571, 1322822218, 1537002063,
   1747873779, 1955562222, 2024104815, 2227730452, 2361852424,
   2428436474, 2756734187, 3204031479, 3329325298]

/-- Initial SHA-256 hash state. -/
def sha256H0 : List Nat :=
  [1779033703, 3144134277, 1013904242, 2773480762,
   1359893119, 2600822924, 528734635, 1541459225]

/-- `n` bytes of `v`, big-endian. -/
def beBytes : Nat → Nat → List Nat
  | 0, _ => []
  | k + 1, v => v / 2 ^ (8 * k) % 256 :: beBytes k v

/-- SHA-256 padding: append 0x80, zeros to 56 mod 64, then the 64-bit
big-endian bit length. -/
def sha256Pad (m : List Nat) : List Nat :=
  m ++ 0x80 :: List.replicate ((119 - m.length % 64) % 64) 0
    ++ beBytes 8 (8 * m.length)

/-- Split a byte list into 64-byte chunks (structural recursion on a
fuel bound, so the definition reduces in the kernel). -/
def chunks64Aux : Nat → List Nat → List (List Nat)
  | _, [] => []
  | 0, l => [l]
  | fuel + 1, b :: rest =>
      List.take 64 (b :: rest) :: chunks64Aux fuel (List.drop 63 rest)

def chunks64 (l : List Nat) : List (List Nat) := chunks64Aux l.length l

/-- Pack bytes into big-endian 32-bit words (4 bytes per word). -/
def bytesToWords : List Nat → List Nat
  | b1 :: b2 :: b3 :: b4 :: rest =>
      (((b1 * 256 + b2) * 256 + b3) * 256 + b4) :: bytesToWords rest
  | _ => []

/-- Extend a 16-word message schedule to 64 words; the schedule is kept
most-recent-first, so `w[n-2]` is entry 1, `w[n-7]` entry 6, `w[n-15]`
entry 14 and `w[n-16]` entry 15 (`fuel` = words still to add). -/
def sha256ExtendRev : Nat → List Nat → List Nat
  | 0, w => w
  | fuel + 1, w =>
      sha256ExtendRev fuel (add32
        (add32 (sha256SSig1 (w.getD 1 0)) (w.getD 6 0))
        (add32 (sha256SSig0 (w.getD 14 0)) (w.getD 15 0)) :: w)

/-- One SHA-256 compression round on the 8-word working state. -/
def sha256Round (st : List Nat) (kw : Nat × Nat) : List Nat :=
  match st with
  | [a, b, c, d, e, f, g, h] =>
      let t1 := add32 h (add32 (sha256BSig1 e)
        (add32 (sha256Ch e f g) (add32 kw.1 kw.2)))
      let t2 := add32 (sha256BSig0 a) (sha256Maj a b c)
      [add32 t1 t2, a, b, c, add32 d t1, e, f, g]
  | other => other

/-- Compress one 64-byte block into the running 8-word hash state. -/
def sha256Compress (hs : List Nat) (block : List Nat) : List Nat :=
  let w := (sha256ExtendRev 48 (bytesToWords block).reverse).reverse
  let final := (sha256K.zip w).foldl sha256Round hs
  (hs.zip final).map fun p => add32 p.1 p.2

/-- SHA-256 of a byte list, as the 32-byte digest. -/
def sha256 (msg : List Nat) : List Nat :=
  ((chunks64 (sha256Pad msg)).foldl sha256Compress sha256H0).flatMap
    (beBytes 4)

/-- The bytes of a string, as the Rust `str::as_bytes` (UTF-8); on the
ASCII strings the flow produces this is the character codes. -/
def charBytes (c : Char) : List Nat :=
  let n := c.toNat
  if n < 0x80 then [n]
  else if n < 0x800 then [0xC0 + n / 64, 0x80 + n % 64]
  else if n < 0x10000 then
    [0xE0 + n / 4096, 0x80 + n / 64 % 64, 0x80 + n % 64]
  else
    [0xF0 + n / 262144, 0x80 + n / 4096 % 64, 0x80 + n / 64 % 64,
     0x80 + n % 64]

def strBytes (s : String) : List Nat := s.toList.flatMap charBytes

/-! ## SecretGenerator (`generate_pkce`, `generate_state`,
auth/mod.rs:251-272).  The 32 (resp. 16) bytes drawn from `getrandom`
are passed in explicitly. -/

/-- `generate_pkce` (auth/mod.rs:251-264): verifier is the base64url
no-pad encoding of the 32 random bytes; challenge is the base64url
no-pad encoding of SHA-256 of the verifier string's bytes. -/
def generate_pkce (verifierBytes : List Nat) : String × String :=
  let verifier := b64url verifierBytes
  let challenge := b64url (sha256 (strBytes verifier))
  (verifier, challenge)

/-- `generate_state` (auth/mod.rs:266-272): base64url no-pad encoding of
16 random bytes. -/
def generate_state (stateBytes : List Nat) : String := b64url stateBytes

/-! ## `urlencoding::encode` (used at auth/mod.rs:57-59): percent-encode
every UTF-8 byte except ASCII alphanumerics and `-`, `.`, `_`, `~`,
with uppercase hex digits. -/

def isUnreserved (c : Char) : Bool :=
  c.isAlphanum || c = '-' || c = '.' || c = '_' || c = '~'

def hexDigitU (n : Nat) : Char :=
  if n < 10 then Char.ofNat (48 + n) else Char.ofNat (55 + n)

def pctByte (b : Nat) : List Char := ['%', hexDigitU (b / 16), hexDigitU (b % 16)]

def urlencodeChar (c : Char) : List Char :=
  if isUnreserved c then [c] else (charBytes c).flatMap pctByte

def urlencode (s : String) : String := ⟨s.toList.flatMap urlencodeChar⟩

/-! ## The authorization URL (auth/mod.rs:54-62).  The `format!` call
percent-encodes `client_id`, `redirect_url` and the literal scope
string, and splices `state` and `pkce_challenge` in raw. -/

/-- `auth_url` exactly as formatted at auth/mod.rs:54-62. -/
def authUrl (authorization_endpoint client_id redirect_url state challenge :
    String) : String :=
  authorization_endpoint ++ "?client_id=" ++ urlencode client_id ++
    "&redirect_uri=" ++ urlencode redirect_url ++
    "&response_type=code&scope=" ++ urlencode "openid email profile" ++
    "&state=" ++ state ++ "&code_challenge=" ++ challenge ++
    "&code_challenge_method=S256"

/-- The authorization URL as the spec words it: the same parameters in
the same order, but with every parameter value percent-encoded. -/
def authUrlSpec (authorization_endpoint client_id redirect_url state
    challenge : String) : String :=
  authorization_endpoint ++ "?client_id=" ++ urlencode client_id ++
    "&redirect_uri=" ++ urlencode redirect_url ++
    "&response_type=code&scope=" ++ urlencode "openid email profile" ++
    "&state=" ++ urlencode state ++ "&code_challenge=" ++
    urlencode challenge ++ "&code_challenge_method=S256"

/-! ## The callback HTTP server (the thread body, auth/mod.rs:76-146). -/

/-- ASCII whitespace as recognised when splitting the request line
(Rust `str::split_whitespace`; the Unicode cases cannot occur in an
HTTP request line). -/
def isWs (c : Char) : Bool :=
  c = ' ' || c = '\t' || c = '\n' || c = '\x0b' || c = '\x0c' || c = '\r'

def splitWhitespaceAux : List Char → List Char → List String
  | [], cur => if cur.isEmpty then [] else [⟨cur.reverse⟩]
  | c :: rest, cur =>
      if isWs c then
        if cur.isEmpty then splitWhitespaceAux rest []
        else ⟨cur.reverse⟩ :: splitWhitespaceAux rest []
      else splitWhitespaceAux rest (c :: cur)

/-- Rust `str::split_whitespace`, collected. -/
def splitWhitespace (s : String) : List String := splitWhitespaceAux s.toList []

/-- `request_line.split_whitespace().nth(1)` (auth/mod.rs:90): the
request path. -/
def requestPath (request_line : String) : Option String :=
  (splitWhitespace request_line).get? 1

def hexVal (c : Char) : Option Nat :=
  if '0' ≤ c ∧ c ≤ '9' then some (c.toNat - 48)
  else if 'A' ≤ c ∧ c ≤ 'F' then some (c.toNat - 55)
  else if 'a' ≤ c ∧ c ≤ 'f' then some (c.toNat - 87)
  else none

/-- Percent- and plus-decoding of one query component, as
`form_urlencoded` does inside `Url::query_pairs` (invalid `%` escapes
pass through; decoded bytes are read back as characters, faithful for
the ASCII data this flow handles). -/
def pctDecode : List Char → List Char
  | [] => []
  | '%' :: a :: b :: rest =>
      match hexVal a, hexVal b with
      | some x, some y => Char.ofNat (16 * x + y) :: pctDecode rest
      | _, _ => '%' :: pctDecode (a :: b :: rest)
  | '+' :: rest => ' ' :: pctDecode rest
  | c :: rest => c :: pctDecode rest

/-- Split a list at the first occurrence of `sep`; `none` second
component when `sep` does not occur. -/
def splitFirst (sep : Char) : List Char → List Char × Option (List Char)
  | [] => ([], none)
  | c :: rest =>
      if c = sep then ([], some rest)
      else
        let p := splitFirst sep rest
        (c :: p.1, p.2)

/-- One `name=value` piece of the query, decoded; empty pieces between
`&`s yield nothing. -/
def parsePiece (piece : List Char) : Option (String × String) :=
  if piece.isEmpty then none
  else
    let p := splitFirst '=' piece
    some (⟨pctDecode p.1⟩, ⟨pctDecode (p.2.getD [])⟩)

def splitAmpAux : List Char → List Char → List (List Char)
  | [], cur => [cur.reverse]
  | c :: rest, cur =>
      if c = '&' then cur.reverse :: splitAmpAux rest []
      else splitAmpAux rest (c :: cur)

/-- Split a query at `&` (empty pieces are dropped later, as the
`form_urlencoded` iterator drops them). -/
def splitAmp (l : List Char) : List (List Char) := splitAmpAux l []

/-- The decoded query pairs of a query string, in order
(`Url::query_pairs`). -/
def queryPairs (query : List Char) : List (String × String) :=
  (splitAmp query).filterMap parsePiece

/-- The query-string part of a request path: everything after the first
`?` and before a `#` fragment. -/
def queryPart (path : String) : List Char :=
  match (splitFirst '?' path.toList).2 with
  | none => []
  | some rest => (splitFirst '#' rest).1

/-- `Url::parse(&format!("http://127.0.0.1{}", path))` followed by
`query_pairs` (auth/mod.rs:95-108).  The WHATWG parser accepts any path
that keeps the authority intact (one beginning with `/` or `?`) and is
modelled as failing otherwise (a stray token would re-parse the
authority). Only the query pairs are retained: the code never inspects
the parsed path. -/
def urlParse (path : String) : Option (List (String × String)) :=
  match path.toList with
  | '/' :: _ => some (queryPairs (queryPart path))
  | '?' :: _ => some (queryPairs (queryPart path))
  | _ => none

/-- First query pair with the given key, `find` semantics
(auth/mod.rs:101-108). -/
def findParam (pairs : List (String × String)) (k : String) : Option String :=
  (pairs.find? fun p => p.1 = k).map Prod.snd

/-! ## The fixed response pages and HTTP response (auth/mod.rs:110-136). -/

/-- The success page served when `code` is present (auth/mod.rs:111-118). -/
def successHtml : String :=
  "<!DOCTYPE html>\n<html>\n<head><title>LogChef CLI</title></head>\n<body style=\"font-family: system-ui; text-align: center; padding-top: 50px;\">\n<h1>Authentication Successful!</h1>\n<p>You can close this window and return to the terminal.</p>\n</body>\n</html>"

/-- The failure page served when `code` is absent (auth/mod.rs:120-127). -/
def failureHtml : String :=
  "<!DOCTYPE html>\n<html>\n<head><title>LogChef CLI</title></head>\n<body style=\"font-family: system-ui; text-align: center; padding-top: 50px;\">\n<h1>Authentication Failed</h1>\n<p>Please try again.</p>\n</body>\n</html>"

/-- The full response written to the stream (auth/mod.rs:130-134);
`Content-Length` is the Rust byte length of the body. -/
def httpResponse (body : String) : String :=
  "HTTP/1.1 200 OK\r\nContent-Type: text/html\r\nContent-Length: " ++
    toString (strBytes body).length ++ "\r\nConnection: close\r\n\r\n" ++ body

/-! ## The accept loop (auth/mod.rs:81-145) over an explicit stream of
incoming connections. -/

/-- One element of `listener.incoming()`: an accept error, or a
connection whose request line read either fails (`none`) or yields the
given line. -/
inductive ConnEvent where
  | acceptErr
  | request (line : Option String)
deriving DecidableEq

/-- What one loop iteration does with a connection: skip it silently
(`continue` before any write), answer it and keep looping, or answer it,
send `(code, state)` on the channel and `break`. -/
inductive ConnResult where
  | skip
  | respond (response : String)
  | terminal (response : String) (code state : String)
deriving DecidableEq

/-- The body of one iteration of the accept loop (auth/mod.rs:82-142). -/
def handleConn : ConnEvent → ConnResult
  | .acceptErr => .skip
  | .request none => .skip
  | .request (some line) =>
      match requestPath line with
      | none => .skip
      | some path =>
          match urlParse path with
          | none => .skip
          | some pairs =>
              let code := findParam pairs "code"
              let st := findParam pairs "state"
              let body := if code.isSome then successHtml else failureHtml
              match code, st with
              | some c, some s => .terminal (httpResponse body) c s
              | _, _ => .respond (httpResponse body)

/-- Result of running the accept loop on a stream of connections:
the responses written (`none` for a skipped connection), the at most
one message sent on the channel, and the connections never accepted
because the loop broke and the listener was dropped before them. -/
structure ServerRun where
  responses : List (Option String)
  sent : Option (String × String)
  unserved : List ConnEvent
deriving DecidableEq

/-- The accept loop (auth/mod.rs:81-145). -/
def serverLoop : List ConnEvent → ServerRun
  | [] => ⟨[], none, []⟩
  | e :: rest =>
      match handleConn e with
      | .skip =>
          let r := serverLoop rest
          ⟨none :: r.responses, r.sent, r.unserved⟩
      | .respond resp =>
          let r := serverLoop rest
          ⟨some resp :: r.responses, r.sent, r.unserved⟩
      | .terminal resp c s => ⟨[some resp], some (c, s), rest⟩

/-! ## Binding the listener (auth/mod.rs:35-39). -/

/-- The `TcpListener::bind` chain: 19876, else 19877, else 19878, else
port 0 (the OS assigns `ephemeralPort`).  `canBind p` says whether the
OS grants a bind on port `p` (`canBind 0` is the ephemeral attempt). -/
def tryBindPorts (canBind : Nat → Bool) (ephemeralPort : Nat) : Option Nat :=
  if canBind 19876 then some 19876
  else if canBind 19877 then some 19877
  else if canBind 19878 then some 19878
  else if canBind 0 then some ephemeralPort
  else none

/-! ## The HTTP clients used for the outbound calls. -/

/-- The slice of a `reqwest` client's configuration the spec talks
about: its total request timeout in seconds. -/
structure HttpClientConfig where
  timeout : Option Nat
deriving DecidableEq

/-- `reqwest::Client::new()` and the bare `reqwest::get` helper use the
builder defaults, which set no request timeout. -/
def reqwestDefaultClient : HttpClientConfig := ⟨none⟩

/-- `ClientBuilder::timeout` (api/mod.rs:26-27). -/
def HttpClientConfig.withTimeout (c : HttpClientConfig) (secs : Nat) :
    HttpClientConfig := { c with timeout := some secs }

/-- The client used for the OIDC discovery GET: `reqwest::get`
(auth/mod.rs:192). -/
def discoveryClient : HttpClientConfig := reqwestDefaultClient

/-- The client used for the authorization-code token-exchange POST:
`reqwest::Client::new()` (auth/mod.rs:216). -/
def codeExchangeClient : HttpClientConfig := reqwestDefaultClient

/-- `Client::new(server_url, timeout_secs)` (api/mod.rs:22-36) builds a
client with `.timeout(Duration::from_secs(timeout_secs))`. -/
def apiClient (timeout_secs : Nat) : HttpClientConfig :=
  reqwestDefaultClient.withTimeout timeout_secs

/-- The client used for the service-token-exchange POST:
`Client::new(&self.server_url, 30)` (auth/mod.rs:174). -/
def serviceExchangeClient : HttpClientConfig := apiClient 30

/-! ## The flow orchestrator (`AuthFlow::run`, auth/mod.rs:34-182). -/

/-- `CALLBACK_TIMEOUT` (auth/mod.rs:11), in seconds. -/
def CALLBACK_TIMEOUT : Nat := 300

/-- `OidcConfig` (auth/mod.rs:245-249). -/
structure OidcConfig where
  authorization_endpoint : String
  token_endpoint : String
deriving DecidableEq

/-- `AuthFlow` (auth/mod.rs:13-17). -/
structure AuthFlow where
  server_url : String
  oidc_issuer : String
  client_id : String
deriving DecidableEq

/-- `TokenUser` (api/models.rs:174-182).  `chrono` timestamps are
opaque here and carried as `Nat`. -/
structure TokenUser where
  id : Int
  email : String
  full_name : Option String
  role : Option String
deriving DecidableEq

/-- `TokenExchangeData` (api/models.rs:165-172). -/
structure TokenExchangeData where
  token : String
  expires_at : Option Nat
  user : Option TokenUser
deriving DecidableEq

/-- `AuthResult` (auth/mod.rs:19-23). -/
structure AuthResult where
  token : String
  expires_at : Option Nat
  user_email : Option String
deriving DecidableEq

/-- The `Error` variants (error.rs) `AuthFlow::run` can produce; the
errors of `Client::exchange_token` are collapsed into `apiError`. -/
inductive FlowError where
  | auth (msg : String)
  | authTimeout
  | oauth (msg : String)
  | apiError (msg : String)
deriving DecidableEq

/-- Everything the outside world feeds one execution of
`AuthFlow::run`: whether each bind attempt is granted, the random
bytes, the discovery response, the incoming connections, whether the
callback send beats the 300-second `recv_timeout`, and the two
token-exchange responses (each keyed by the exact request data the code
sends, so a call is modelled only where the code makes one). -/
structure FlowEnv where
  canBind : Nat → Bool
  ephemeralPort : Nat
  bindErrMsg : String
  pkceBytes : List Nat
  stateBytes : List Nat
  discovery : Except String OidcConfig
  events : List ConnEvent
  inTime : Bool
  codeExchange : String → String → String → String →
    Except String (List (String × String))
  tokenExchange : String → Except String TokenExchangeData

/-- What one execution of `AuthFlow::run` did: its return value, how
many times it invoked `exchange_code_for_tokens` and
`Client::exchange_token`, and whether the bound listener is closed when
`run` returns (`true` when it was never bound, was dropped by `run`
itself, or the accept-loop thread has broken out of its loop; `false`
when the detached thread still holds it blocked in `accept`). -/
structure RunOutcome where
  result : Except FlowError AuthResult
  codeExchangeCalls : Nat
  serviceExchangeCalls : Nat
  listenerClosed : Bool
  authUrlOpened : Option String

/-- `AuthFlow::run` (auth/mod.rs:34-182).  The listener is bound, the
secrets generated, discovery performed, the authorization URL built,
the accept loop run on its own thread with the listener moved into it,
the channel awaited under `CALLBACK_TIMEOUT`, the state compared, and
the two exchanges performed in order. -/
def AuthFlow.run (flow : AuthFlow) (env : FlowEnv) : RunOutcome :=
  match tryBindPorts env.canBind env.ephemeralPort with
  | none =>
      ⟨.error (.auth ("Failed to start callback server: " ++ env.bindErrMsg)),
        0, 0, true, none⟩
  | some port =>
      let redirect_url := "http://127.0.0.1:" ++ toString port ++ "/callback"
      let pk := generate_pkce env.pkceBytes
      let expected_state := generate_state env.stateBytes
      match env.discovery with
      | .error e => ⟨.error (.oauth e), 0, 0, true, none⟩
      | .ok oidc_config =>
          let auth_url := authUrl oidc_config.authorization_endpoint
            flow.client_id redirect_url expected_state pk.2
          let server := serverLoop env.events
          match server.sent with
          | none => ⟨.error .authTimeout, 0, 0, false, some auth_url⟩
          | some (code, received_state) =>
              if !env.inTime then
                ⟨.error .authTimeout, 0, 0, true, some auth_url⟩
              else if received_state ≠ expected_state then
                ⟨.error (.auth "CSRF state mismatch"), 0, 0, true,
                  some auth_url⟩
              else
                match env.codeExchange oidc_config.token_endpoint code
                    redirect_url pk.1 with
                | .error e => ⟨.error (.oauth e), 1, 0, true, some auth_url⟩
                | .ok token_response =>
                    match findParam token_response "id_token" with
                    | none =>
                        ⟨.error (.oauth "No ID token in response"), 1, 0,
                          true, some auth_url⟩
                    | some id_token =>
                        match env.tokenExchange id_token with
                        | .error e =>
                            ⟨.error (.apiError e), 1, 1, true, some auth_url⟩
                        | .ok d =>
                            ⟨.ok ⟨d.token, d.expires_at,
                              d.user.map TokenUser.email⟩, 1, 1, true,
                              some auth_url⟩

/-- Characters the base64url alphabet can produce. -/
def isB64UrlChar (c : Char) : Bool := c.isAlphanum || c = '-' || c = '_'

/-- The challenge exactly as the spec words it:
base64url-no-padding of SHA-256 of the verifier's ASCII bytes. -/
def pkceChallengeSpec (verifier : String) : String :=
  b64url (sha256 (strBytes verifier))

/-! ## Concrete data for witnesses. -/

/-- A concrete environment for witnesses: binds succeed, discovery
returns the spec's mock endpoints, the random source yields the bytes
0.. in order, and both exchanges answer like the spec's end-to-end
mock. -/
def mockEnv (events : List ConnEvent) : FlowEnv where
  canBind := fun _ => true
  ephemeralPort := 0
  bindErrMsg := "address in use"
  pkceBytes := List.range 32
  stateBytes := List.range 16
  discovery := .ok ⟨"https://idp/auth", "https://idp/token"⟩
  events := events
  inTime := true
  codeExchange := fun _ _ _ _ => .ok [("id_token", "x.y.z")]
  tokenExchange := fun _ =>
    .ok ⟨"svc-123", none, some ⟨1, "a@b.com", none, none⟩⟩

/-- A callback request carrying a `state` that matches no session. -/
def evilCallback : ConnEvent :=
  .request (some "GET /callback?code=abc&state=EVIL HTTP/1.1\r\n")

def pairCallbackLine : String := "GET /callback?code=abc&state=xyz HTTP/1.1\r\n"

def noPairCallbackLine : String := "GET /callback HTTP/1.1\r\n"

def faviconLine : String := "GET /favicon.ico?code=x&state=y HTTP/1.1\r\n"

/-! ## Sanity checks (concrete evaluation). -/

/-- Sanity check against the standard SHA-256 test vector for "abc". -/
example : sha256 [97, 98, 99] =
    [0xba, 0x78, 0x16, 0xbf, 0x8f, 0x01, 0xcf, 0xea,
     0x41, 0x41, 0x40, 0xde, 0x5d, 0xae, 0x22, 0x23,
     0xb0, 0x03, 0x61, 0xa3, 0x96, 0x17, 0x7a, 0x9c,
     0xb4, 0x10, 0xff, 0x61, 0xf2, 0x00, 0x15, 0xad] := by decide

/-- Sanity check of the encoder against `URL_SAFE_NO_PAD`. -/
example : b64url [251, 239, 190] = "----" := by decide

/-! ## Helper lemmas. -/

theorem b64urlChar_b64 : ∀ n, n < 64 → isB64UrlChar (b64urlChar n) = true := by
  decide

theorem b64urlEncode_chars : ∀ (l : List Nat), (∀ b ∈ l, b < 256) →
    ∀ c ∈ b64urlEncode l, isB64UrlChar c = true
  | [], _, c, hc => by simp [b64urlEncode] at hc
  | [b1], h, c, hc => by
      have hb1 := h b1 (by simp)
      simp only [b64urlEncode, List.mem_cons, List.not_mem_nil, or_false]
        at hc
      rcases hc with rfl | rfl
      · exact b64urlChar_b64 _ (by omega)
      · exact b64urlChar_b64 _ (by omega)
  | [b1, b2], h, c, hc => by
      have hb1 := h b1 (by simp)
      have hb2 := h b2 (by simp)
      simp only [b64urlEncode, List.mem_cons, List.not_mem_nil, or_false]
        at hc
      rcases hc with rfl | rfl | rfl
      · exact b64urlChar_b64 _ (by omega)
      · exact b64urlChar_b64 _ (by omega)
      · exact b64urlChar_b64 _ (by omega)
  | b1 :: b2 :: b3 :: rest, h, c, hc => by
      have hb1 := h b1 (by simp)
      have hb2 := h b2 (by simp)
      have hb3 := h b3 (by simp)
      rw [show b64urlEncode (b1 :: b2 :: b3 :: rest) =
        b64urlChar (b1 / 4) :: b64urlChar (b1 % 4 * 16 + b2 / 16) ::
        b64urlChar (b2 % 16 * 4 + b3 / 64) :: b64urlChar (b3 % 64) ::
        b64urlEncode rest from rfl] at hc
      simp only [List.mem_cons] at hc
      rcases hc with rfl | rfl | rfl | rfl | hc
      · exact b64urlChar_b64 _ (by omega)
      · exact b64urlChar_b64 _ (by omega)
      · exact b64urlChar_b64 _ (by omega)
      · exact b64urlChar_b64 _ (by omega)
      · exact b64urlEncode_chars rest
          (fun b hb => h b (List.mem_cons_of_mem _ (List.mem_cons_of_mem _
            (List.mem_cons_of_mem _ hb)))) c hc

theorem beBytes_lt : ∀ (k v : Nat), ∀ b ∈ beBytes k v, b < 256
  | 0, _, b, hb => by simp [beBytes] at hb
  | k + 1, v, b, hb => by
      simp only [beBytes, List.mem_cons] at hb
      rcases hb with rfl | hb
      · exact Nat.mod_lt _ (by omega)
      · exact beBytes_lt k v b hb

theorem sha256_lt (m : List Nat) : ∀ b ∈ sha256 m, b < 256 := by
  intro b hb
  simp only [sha256, List.mem_flatMap] at hb
  obtain ⟨w, _, hbw⟩ := hb
  exact beBytes_lt 4 w b hbw

theorem b64urlEncode_length : ∀ l : List Nat,
    (b64urlEncode l).length = (4 * l.length + 2) / 3
  | [] => by simp [b64urlEncode]
  | [b1] => by simp [b64urlEncode]
  | [b1, b2] => by simp [b64urlEncode]
  | b1 :: b2 :: b3 :: rest => by
      have ih := b64urlEncode_length rest
      rw [show b64urlEncode (b1 :: b2 :: b3 :: rest) =
        b64urlChar (b1 / 4) :: b64urlChar (b1 % 4 * 16 + b2 / 16) ::
        b64urlChar (b2 % 16 * 4 + b3 / 64) :: b64urlChar (b3 % 64) ::
        b64urlEncode rest from rfl]
      simp only [List.length_cons]
      omega

theorem isB64UrlChar_unreserved (c : Char) (h : isB64UrlChar c = true) :
    isUnreserved c = true := by
  simp only [isB64UrlChar, Bool.or_eq_true] at h
  simp only [isUnreserved, Bool.or_eq_true]
  tauto

theorem b64url_unreserved (bs : List Nat) (h : ∀ b ∈ bs, b < 256) :
    ∀ c ∈ (b64url bs).toList, isUnreserved c = true :=
  fun c hc => isB64UrlChar_unreserved c (b64urlEncode_chars bs h c hc)

theorem flatMap_urlencodeChar_id (l : List Char)
    (h : ∀ c ∈ l, isUnreserved c = true) : l.flatMap urlencodeChar = l := by
  induction l with
  | nil => rfl
  | cons c cs ih =>
      have hc : isUnreserved c = true := h c (by simp)
      simp [urlencodeChar, hc, ih fun d hd => h d (List.mem_cons_of_mem _ hd)]

/-- `urlencoding::encode` is the identity on strings of unreserved
characters. -/
theorem urlencode_id (s : String) (h : ∀ c ∈ s.toList, isUnreserved c = true) :
    urlencode s = s := by
  cases s with
  | mk data =>
      show String.mk (data.flatMap urlencodeChar) = String.mk data
      rw [flatMap_urlencodeChar_id data h]

/-! ## Claim theorems. -/

/-- C3: for every pair returned by `generate_pkce`, the verifier is the
base64url-no-padding encoding of the 32 bytes drawn from the random
source (hence 43 characters), and the challenge is the
base64url-no-padding encoding of SHA-256 of the verifier's ASCII
bytes. -/
theorem generate_pkce_correct (bytes : List Nat) (h : bytes.length = 32) :
    (generate_pkce bytes).1 = b64url bytes ∧
    (generate_pkce bytes).2 = pkceChallengeSpec (generate_pkce bytes).1 ∧
    ((generate_pkce bytes).1).length = 43 := by
  refine ⟨rfl, rfl, ?_⟩
  show (String.mk (b64urlEncode bytes)).length = 43
  simp only [String.length]
  rw [b64urlEncode_length]
  omega

/-- Witness for `generate_pkce_correct` at the concrete byte vector
`0, 1, ..., 31`. -/
theorem generate_pkce_correct_witness :
    (List.range 32).length = 32 ∧
    (generate_pkce (List.range 32)).2 =
      pkceChallengeSpec (generate_pkce (List.range 32)).1 :=
  ⟨by decide, (generate_pkce_correct (List.range 32) (by decide)).2.1⟩

/-- C5 counterexample: it is not the case that all three outbound calls
carry their own finite call-level timeout — the discovery GET
(`reqwest::get`) and the code-exchange POST (`reqwest::Client::new()`)
are made through clients with no timeout configured. -/
theorem not_all_clients_have_timeout :
    ¬(discoveryClient.timeout.isSome = true ∧
      codeExchangeClient.timeout.isSome = true ∧
      serviceExchangeClient.timeout.isSome = true) := by
  decide

/-- C5 amended: only the service-token-exchange POST is issued through
a client with a call-level timeout (30 seconds, distinct from and
independent of the 300-second callback wait); the discovery GET and
the authorization-code exchange POST use default clients with no
call-level timeout. -/
theorem client_timeouts :
    discoveryClient.timeout = none ∧
    codeExchangeClient.timeout = none ∧
    serviceExchangeClient.timeout = some 30 ∧
    CALLBACK_TIMEOUT = 300 := by
  decide

/-- C7: the bind chain tries 19876, 19877, 19878 in that fixed order,
then the OS-assigned ephemeral port, and fails exactly when every
attempt, the ephemeral fallback included, is refused. -/
theorem tryBindPorts_correct (canBind : Nat → Bool) (ephemeralPort : Nat) :
    (tryBindPorts canBind ephemeralPort = none ↔
      canBind 19876 = false ∧ canBind 19877 = false ∧
      canBind 19878 = false ∧ canBind 0 = false) ∧
    (canBind 19876 = true →
      tryBindPorts canBind ephemeralPort = some 19876) ∧
    (canBind 19876 = false → canBind 19877 = true →
      tryBindPorts canBind ephemeralPort = some 19877) ∧
    (canBind 19876 = false → canBind 19877 = false → canBind 19878 = true →
      tryBindPorts canBind ephemeralPort = some 19878) ∧
    (canBind 19876 = false → canBind 19877 = false → canBind 19878 = false →
      canBind 0 = true →
      tryBindPorts canBind ephemeralPort = some ephemeralPort) := by
  cases h1 : canBind 19876 <;> cases h2 : canBind 19877 <;>
    cases h3 : canBind 19878 <;> cases h4 : canBind 0 <;>
    simp [tryBindPorts, h1, h2, h3, h4]

/-- Witness for `tryBindPorts_correct`: with the three explicit
candidates occupied, the ephemeral fallback is chosen. -/
theorem tryBindPorts_correct_witness :
    tryBindPorts (fun p => p == 0) 45678 = some 45678 :=
  (tryBindPorts_correct (fun p => p == 0) 45678).2.2.2.2 rfl rfl rfl rfl

/-! ## Server-loop helper lemmas. -/

theorem serverLoop_cons_skip (e : ConnEvent) (rest : List ConnEvent)
    (h : handleConn e = .skip) :
    serverLoop (e :: rest) = ⟨none :: (serverLoop rest).responses,
      (serverLoop rest).sent, (serverLoop rest).unserved⟩ := by
  simp only [serverLoop, h]

theorem serverLoop_cons_respond (e : ConnEvent) (rest : List ConnEvent)
    (resp : String) (h : handleConn e = .respond resp) :
    serverLoop (e :: rest) = ⟨some resp :: (serverLoop rest).responses,
      (serverLoop rest).sent, (serverLoop rest).unserved⟩ := by
  simp only [serverLoop, h]

theorem serverLoop_cons_terminal (e : ConnEvent) (rest : List ConnEvent)
    (resp c s : String) (h : handleConn e = .terminal resp c s) :
    serverLoop (e :: rest) = ⟨[some resp], some (c, s), rest⟩ := by
  simp only [serverLoop, h]

/-- What one loop iteration does with a connection whose request line
has a path that parses: the outcome is a function of the query pairs
alone. -/
theorem handleConn_request_eq (line path : String)
    (pairs : List (String × String))
    (hp : requestPath line = some path) (hq : urlParse path = some pairs) :
    handleConn (.request (some line)) =
      match findParam pairs "code", findParam pairs "state" with
      | some c, some s => .terminal (httpResponse successHtml) c s
      | some _, none => .respond (httpResponse successHtml)
      | none, _ => .respond (httpResponse failureHtml) := by
  simp only [handleConn, hp, hq]
  rcases hc : findParam pairs "code" with _ | c <;>
    rcases hs : findParam pairs "state" with _ | s <;> simp [hc, hs]

/-- A path beginning with `/` parses, to its query pairs. -/
theorem urlParse_slash (path : String) (h : path.toList.head? = some '/') :
    urlParse path = some (queryPairs (queryPart path)) := by
  unfold urlParse
  rcases hl : path.toList with _ | ⟨c, t⟩
  · rw [hl] at h; simp at h
  · rw [hl] at h
    simp only [List.head?_cons, Option.some.injEq] at h
    subst h
    rfl

theorem serverLoop_congr (e1 e2 : ConnEvent) (rest : List ConnEvent)
    (h : handleConn e1 = handleConn e2) :
    serverLoop (e1 :: rest) = serverLoop (e2 :: rest) := by
  simp only [serverLoop, h]

/-- Whenever an iteration breaks the accept loop, the response it wrote
first was the success page (the terminal arm requires `code` present). -/
theorem handleConn_terminal_success (e : ConnEvent) (r c s : String)
    (h : handleConn e = .terminal r c s) : r = httpResponse successHtml := by
  rcases e with _ | ⟨_ | line⟩
  · simp [handleConn] at h
  · simp [handleConn] at h
  · rcases hp : requestPath line with _ | path
    · simp [handleConn, hp] at h
    · rcases hq : urlParse path with _ | pairs
      · simp [handleConn, hp, hq] at h
      · rcases hc : findParam pairs "code" with _ | cv <;>
          rcases hs : findParam pairs "state" with _ | sv <;>
          simp [handleConn, hp, hq, hc, hs] at h
        exact h.1.symm

/-- The accept loop sends at most one message; when it does, the stream
splits into non-terminal connections, the one terminal connection, and
the connections left unserved behind the closed listener. -/
theorem serverLoop_single_result_aux : ∀ evs : List ConnEvent,
    ((serverLoop evs).sent = none → (serverLoop evs).unserved = []) ∧
    (∀ c s, (serverLoop evs).sent = some (c, s) →
      ∃ pre e, evs = pre ++ e :: (serverLoop evs).unserved ∧
        handleConn e = .terminal (httpResponse successHtml) c s ∧
        ∀ e2 ∈ pre, ∀ r c2 s2, handleConn e2 ≠ .terminal r c2 s2) := by
  intro evs
  induction evs with
  | nil => simp [serverLoop]
  | cons e rest ih =>
      rcases hh : handleConn e with _ | resp | ⟨resp, c0, s0⟩
      · rw [serverLoop_cons_skip e rest hh]
        constructor
        · intro hn
          exact ih.1 hn
        · intro c s hs
          obtain ⟨pre, e0, hsplit, hterm, hpre⟩ := ih.2 c s hs
          refine ⟨e :: pre, e0, by simp [← hsplit], hterm, ?_⟩
          intro e2 he2 r c2 s2
          rcases List.mem_cons.mp he2 with rfl | he2
          · simp [hh]
          · exact hpre e2 he2 r c2 s2
      · rw [serverLoop_cons_respond e rest resp hh]
        constructor
        · intro hn
          exact ih.1 hn
        · intro c s hs
          obtain ⟨pre, e0, hsplit, hterm, hpre⟩ := ih.2 c s hs
          refine ⟨e :: pre, e0, by simp [← hsplit], hterm, ?_⟩
          intro e2 he2 r c2 s2
          rcases List.mem_cons.mp he2 with rfl | he2
          · simp [hh]
          · exact hpre e2 he2 r c2 s2
      · rw [serverLoop_cons_terminal e rest resp c0 s0 hh]
        constructor
        · intro hn
          simp at hn
        · intro c s hs
          simp only [Option.some.injEq, Prod.mk.injEq] at hs
          obtain ⟨rfl, rfl⟩ := hs
          have hr := handleConn_terminal_success e resp c0 s0 hh
          subst hr
          exact ⟨[], e, by simp, hh, by simp⟩

/-- After a delivered callback, `run` fails with the CSRF error exactly
when the received state differs from the session's generated state. -/
theorem run_csrf_iff (flow : AuthFlow) (env : FlowEnv) (port : Nat)
    (cfg : OidcConfig) (c s : String)
    (hb : tryBindPorts env.canBind env.ephemeralPort = some port)
    (hd : env.discovery = .ok cfg)
    (hsent : (serverLoop env.events).sent = some (c, s))
    (ht : env.inTime = true) :
    ((flow.run env).result = .error (.auth "CSRF state mismatch") ↔
      s ≠ generate_state env.stateBytes) := by
  unfold AuthFlow.run
  simp only [hb, hd, hsent, ht]
  by_cases hne : s ≠ generate_state env.stateBytes
  · simp [hne]
  · simp only [hne, if_false, Bool.not_true]
    simp only [ne_eq, not_not] at hne
    rcases hce : env.codeExchange cfg.token_endpoint c
        ("http://127.0.0.1:" ++ toString port ++ "/callback")
        (generate_pkce env.pkceBytes).1 with e | fields
    · simp [hce, hne]
    · rcases hid : findParam fields "id_token" with _ | idt
      · simp [hce, hid, hne]
      · rcases hte : env.tokenExchange idt with e | d
        · simp [hce, hid, hte, hne]
        · simp [hce, hid, hte, hne]

/-- C1: if the callback delivered over the channel carries a state
different from the session's generated csrf state, the flow returns the
CSRF-mismatch error and neither `exchange_code_for_tokens` nor
`exchange_token` is ever invoked on that run. -/
theorem csrf_mismatch_aborts (flow : AuthFlow) (env : FlowEnv) (port : Nat)
    (cfg : OidcConfig) (c s : String)
    (hb : tryBindPorts env.canBind env.ephemeralPort = some port)
    (hd : env.discovery = .ok cfg)
    (hsent : (serverLoop env.events).sent = some (c, s))
    (ht : env.inTime = true)
    (hne : s ≠ generate_state env.stateBytes) :
    (flow.run env).result = .error (.auth "CSRF state mismatch") ∧
    (flow.run env).codeExchangeCalls = 0 ∧
    (flow.run env).serviceExchangeCalls = 0 := by
  unfold AuthFlow.run
  simp only [hb, hd, hsent, ht]
  simp [hne]

/-- Witness for `csrf_mismatch_aborts`: a session whose csrf state is
generated from bytes 0..15 receives the callback state "EVIL". -/
theorem csrf_mismatch_aborts_witness :
    ((AuthFlow.mk "https://logchef" "https://idp" "cli").run
        (mockEnv [evilCallback])).result =
      .error (.auth "CSRF state mismatch") ∧
    ((AuthFlow.mk "https://logchef" "https://idp" "cli").run
        (mockEnv [evilCallback])).codeExchangeCalls = 0 ∧
    ((AuthFlow.mk "https://logchef" "https://idp" "cli").run
        (mockEnv [evilCallback])).serviceExchangeCalls = 0 :=
  csrf_mismatch_aborts (AuthFlow.mk "https://logchef" "https://idp" "cli")
    (mockEnv [evilCallback]) 19876 ⟨"https://idp/auth", "https://idp/token"⟩
    "abc" "EVIL" rfl rfl (by decide) rfl (by decide)

/-- C2 (bug exhibit): when no qualifying callback ever arrives, `run`
returns the timeout error while the detached accept-loop thread still
holds the bound listener blocked in `accept` — the socket is not closed
when the flow reaches this terminal state, contradicting the spec's
scoped-resource guarantee. -/
theorem timeout_keeps_listener_open (flow : AuthFlow) (env : FlowEnv)
    (port : Nat) (cfg : OidcConfig)
    (hb : tryBindPorts env.canBind env.ephemeralPort = some port)
    (hd : env.discovery = .ok cfg)
    (hn : (serverLoop env.events).sent = none) :
    (flow.run env).result = .error .authTimeout ∧
    (flow.run env).listenerClosed = false := by
  unfold AuthFlow.run
  simp only [hb, hd, hn]
  simp

/-- Witness for `timeout_keeps_listener_open`: no connection at all
arrives within the deadline. -/
theorem timeout_keeps_listener_open_witness :
    ((AuthFlow.mk "https://logchef" "https://idp" "cli").run
        (mockEnv [])).result = .error .authTimeout ∧
    ((AuthFlow.mk "https://logchef" "https://idp" "cli").run
        (mockEnv [])).listenerClosed = false :=
  timeout_keeps_listener_open
    (AuthFlow.mk "https://logchef" "https://idp" "cli") (mockEnv [])
    19876 ⟨"https://idp/auth", "https://idp/token"⟩ rfl rfl rfl

/-- C4: a request whose path parses but whose query lacks the
code/state pair is answered while the loop keeps serving the remaining
connections; the first request yielding both code and state is
terminal — it is answered, its pair is sent on the channel exactly
once, the loop exits and every later connection is left unserved. -/
theorem serverLoop_callback_protocol (line path : String)
    (pairs : List (String × String)) (rest : List ConnEvent)
    (hp : requestPath line = some path) (hq : urlParse path = some pairs) :
    ((findParam pairs "code").isSome = false ∨
        (findParam pairs "state").isSome = false →
      serverLoop (.request (some line) :: rest) =
        ⟨some (httpResponse (if (findParam pairs "code").isSome then
            successHtml else failureHtml)) :: (serverLoop rest).responses,
          (serverLoop rest).sent, (serverLoop rest).unserved⟩) ∧
    (∀ c s, findParam pairs "code" = some c →
      findParam pairs "state" = some s →
      serverLoop (.request (some line) :: rest) =
        ⟨[some (httpResponse successHtml)], some (c, s), rest⟩) := by
  have hh := handleConn_request_eq line path pairs hp hq
  constructor
  · intro h
    rcases hc : findParam pairs "code" with _ | c <;>
      rcases hs : findParam pairs "state" with _ | s <;>
      rw [hc, hs] at hh <;> simp only [] at hh <;>
      simp [serverLoop, hh, hc, hs] <;> simp [hc, hs] at h
  · intro c s hc hs
    rw [hc, hs] at hh
    simp only [] at hh
    simp [serverLoop, hh]

/-- Witness for `serverLoop_callback_protocol`: a bare `/callback`
request is answered with the failure page and the loop continues; a
`/callback?code=abc&state=xyz` request is terminal. -/
theorem serverLoop_callback_protocol_witness :
    serverLoop [.request (some noPairCallbackLine)] =
      ⟨[some (httpResponse failureHtml)], none, []⟩ ∧
    serverLoop [.request (some pairCallbackLine)] =
      ⟨[some (httpResponse successHtml)], some ("abc", "xyz"), []⟩ :=
  ⟨(serverLoop_callback_protocol noPairCallbackLine "/callback" [] []
      (by decide) (by decide)).1 (Or.inl rfl),
   (serverLoop_callback_protocol pairCallbackLine
      "/callback?code=abc&state=xyz" [("code", "abc"), ("state", "xyz")] []
      (by decide) (by decide)).2 "abc" "xyz" rfl rfl⟩

/-- C6 counterexample: the callback listener terminates — produces its
one channel message, after which its socket is closed — on a result
whose state does not equal the session's csrf state (csrf state
generated from bytes 0..15, callback state "EVIL"): the listener's
terminal result need not be correlated, because the listener performs
no state comparison. -/
theorem listener_terminates_on_uncorrelated :
    (serverLoop [evilCallback]).sent = some ("abc", "EVIL") ∧
    (serverLoop [evilCallback]).unserved = [] ∧
    "EVIL" ≠ generate_state (List.range 16) := by
  decide

/-- C6 (amended): the callback listener accepts and terminates on at
most one result carrying both `code` and `state` — earlier connections
are non-terminal, and connections after the terminal one are left
unserved behind the closed socket — but the listener itself performs no
state comparison; the orchestrator compares the received state against
the session's csrf state for exact equality once the single result is
delivered, and aborts with the CSRF error exactly on inequality. -/
theorem callback_single_result (evs : List ConnEvent) :
    ((serverLoop evs).sent = none → (serverLoop evs).unserved = []) ∧
    (∀ c s, (serverLoop evs).sent = some (c, s) →
      ∃ pre e, evs = pre ++ e :: (serverLoop evs).unserved ∧
        handleConn e = .terminal (httpResponse successHtml) c s ∧
        ∀ e2 ∈ pre, ∀ r c2 s2, handleConn e2 ≠ .terminal r c2 s2) ∧
    (∀ (flow : AuthFlow) (env : FlowEnv) (port : Nat) (cfg : OidcConfig)
        (c s : String),
      tryBindPorts env.canBind env.ephemeralPort = some port →
      env.discovery = .ok cfg →
      (serverLoop env.events).sent = some (c, s) →
      env.inTime = true →
      ((flow.run env).result = .error (.auth "CSRF state mismatch") ↔
        s ≠ generate_state env.stateBytes)) :=
  ⟨(serverLoop_single_result_aux evs).1,
   (serverLoop_single_result_aux evs).2,
   fun flow env port cfg c s hb hd hsent ht =>
     run_csrf_iff flow env port cfg c s hb hd hsent ht⟩

/-- Witness for `callback_single_result`: the uncorrelated callback
"EVIL" makes the orchestrator abort with the CSRF error. -/
theorem callback_single_result_witness :
    ((AuthFlow.mk "https://logchef" "https://idp" "cli").run
        (mockEnv [evilCallback])).result =
      .error (.auth "CSRF state mismatch") :=
  ((callback_single_result [evilCallback]).2.2
    (AuthFlow.mk "https://logchef" "https://idp" "cli")
    (mockEnv [evilCallback]) 19876 ⟨"https://idp/auth", "https://idp/token"⟩
    "abc" "EVIL" rfl rfl (by decide) rfl).mpr (by decide)

/-- C8: every accepted connection whose request line contains a
parseable path is answered with exactly the fixed HTTP/1.1 200
`Content-Type: text/html` / `Connection: close` response whose body is
the success page precisely when the query carries a `code` parameter
and the failure page otherwise. -/
theorem server_response_correct (line path : String)
    (pairs : List (String × String)) (rest : List ConnEvent)
    (hp : requestPath line = some path) (hq : urlParse path = some pairs) :
    (serverLoop (.request (some line) :: rest)).responses.head? =
      some (some (httpResponse (if (findParam pairs "code").isSome then
        successHtml else failureHtml))) := by
  have hh := handleConn_request_eq line path pairs hp hq
  rcases hc : findParam pairs "code" with _ | c <;>
    rcases hs : findParam pairs "state" with _ | s <;>
    rw [hc, hs] at hh <;> simp only [] at hh <;>
    simp [serverLoop, hh, hc, hs]

/-- Witness for `server_response_correct`: a `/callback` request
without a code is answered with the failure page. -/
theorem server_response_correct_witness :
    (serverLoop [.request (some noPairCallbackLine)]).responses.head? =
      some (some (httpResponse failureHtml)) :=
  server_response_correct noPairCallbackLine "/callback" [] []
    (by decide) (by decide)

/-- C9: whenever the flow reaches the point of building the
authorization URL, the URL it opens is the authorization endpoint
followed by exactly `client_id`, `redirect_uri`, `response_type=code`,
`scope=openid email profile`, `state`, `code_challenge` and
`code_challenge_method=S256` in that order with every value
percent-encoded (the raw-spliced `state` and `code_challenge` are
base64url strings, on which percent-encoding is the identity). -/
theorem run_auth_url_encoded (flow : AuthFlow) (env : FlowEnv) (port : Nat)
    (cfg : OidcConfig)
    (hb : tryBindPorts env.canBind env.ephemeralPort = some port)
    (hd : env.discovery = .ok cfg)
    (hsb : ∀ b ∈ env.stateBytes, b < 256) :
    (flow.run env).authUrlOpened = some (authUrlSpec
      cfg.authorization_endpoint flow.client_id
      ("http://127.0.0.1:" ++ toString port ++ "/callback")
      (generate_state env.stateBytes) (generate_pkce env.pkceBytes).2) := by
  have hstate : urlencode (generate_state env.stateBytes) =
      generate_state env.stateBytes :=
    urlencode_id _ (b64url_unreserved _ hsb)
  have hchal : urlencode (generate_pkce env.pkceBytes).2 =
      (generate_pkce env.pkceBytes).2 :=
    urlencode_id _ (b64url_unreserved _ (sha256_lt _))
  have hurl : authUrl cfg.authorization_endpoint flow.client_id
      ("http://127.0.0.1:" ++ toString port ++ "/callback")
      (generate_state env.stateBytes) (generate_pkce env.pkceBytes).2 =
      authUrlSpec cfg.authorization_endpoint flow.client_id
      ("http://127.0.0.1:" ++ toString port ++ "/callback")
      (generate_state env.stateBytes) (generate_pkce env.pkceBytes).2 := by
    unfold authUrl authUrlSpec
    rw [hstate, hchal]
  unfold AuthFlow.run
  simp only [hb, hd]
  rcases hsent : (serverLoop env.events).sent with _ | ⟨c, s⟩ <;>
    simp only [hsent]
  · exact congrArg some hurl
  · repeat' split
    all_goals exact congrArg some hurl

/-- Witness for `run_auth_url_encoded` in the concrete mock
environment. -/
theorem run_auth_url_encoded_witness :
    ((AuthFlow.mk "https://logchef" "https://idp" "cli").run
        (mockEnv [])).authUrlOpened =
      some (authUrlSpec "https://idp/auth" "cli"
        ("http://127.0.0.1:" ++ toString (19876 : Nat) ++ "/callback")
        (generate_state (List.range 16))
        (generate_pkce (List.range 32)).2) :=
  run_auth_url_encoded (AuthFlow.mk "https://logchef" "https://idp" "cli")
    (mockEnv []) 19876 ⟨"https://idp/auth", "https://idp/token"⟩
    rfl rfl (by decide)

/-- C10: the callback server never inspects the request path, only its
query: any request whose query yields both `code` and `state` is
terminal whatever path was asked for, and two parseable paths with the
same query string are handled identically. -/
theorem server_ignores_path (rest : List ConnEvent) :
    (∀ line path c s, requestPath line = some path →
      path.toList.head? = some '/' →
      findParam (queryPairs (queryPart path)) "code" = some c →
      findParam (queryPairs (queryPart path)) "state" = some s →
      serverLoop (.request (some line) :: rest) =
        ⟨[some (httpResponse successHtml)], some (c, s), rest⟩) ∧
    (∀ line1 line2 path1 path2, requestPath line1 = some path1 →
      requestPath line2 = some path2 →
      path1.toList.head? = some '/' → path2.toList.head? = some '/' →
      queryPart path1 = queryPart path2 →
      serverLoop (.request (some line1) :: rest) =
        serverLoop (.request (some line2) :: rest)) := by
  constructor
  · intro line path c s hp hs1 hcode hstate
    have hh := handleConn_request_eq line path _ hp (urlParse_slash path hs1)
    rw [hcode, hstate] at hh
    simp only [] at hh
    simp [serverLoop, hh]
  · intro line1 line2 path1 path2 hp1 hp2 hs1 hs2 hq
    have h1 := handleConn_request_eq line1 path1 _ hp1
      (urlParse_slash path1 hs1)
    have h2 := handleConn_request_eq line2 path2 _ hp2
      (urlParse_slash path2 hs2)
    rw [hq] at h1
    exact serverLoop_congr _ _ rest (h1.trans h2.symm)

/-- Witness for `server_ignores_path`: a `/favicon.ico` request whose
query carries code and state terminates the server exactly like a
`/callback` request. -/
theorem server_ignores_path_witness :
    serverLoop [.request (some faviconLine)] =
      ⟨[some (httpResponse successHtml)], some ("x", "y"), []⟩ :=
  (server_ignores_path []).1 faviconLine "/favicon.ico?code=x&state=y"
    "x" "y" (by decide) (by decide) (by decide) (by decide)
